import Mathlib

/-!
Verification of the card-number validation and classification utility of the
stripe client library, together with the request-building behaviour of the
plan and charge list/create operations.

The validator (`card.go`: `IsLuhnValid`, `GetCardType`, the card-type
constants, `CardParams` and `appendCardParams`) is not present under `src/`;
only its test corpus (`src/card_test.go`) and its callers are.  Those
definitions are therefore modelled from the specification, corrected where the
repository's own test corpus pins the behaviour.  Everything else
(`src/plan.go`, the charges file) is embedded directly from the source.
-/

/-- Modelled from the spec: the closed card-network enumeration of card.go
(the constants `Visa`, `MasterCard`, `AmericanExpress`, `DinersClub`,
`Discover`, `JCB`, `UnknownCard`), which is absent from src/. -/
inductive CardType where
  | Visa
  | MasterCard
  | AmericanExpress
  | DinersClub
  | Discover
  | JCB
  | UnknownCard
deriving DecidableEq, Repr

/-- Modelled from the spec: the error taxonomy of IsLuhnValid (card.go is
absent from src/); the only error kind is InvalidInput (§7). -/
inductive LuhnError where
  | InvalidInput
deriving DecidableEq, Repr

/-- A character in '0'-'9' (code points 48 to 57). -/
def isDigitChar (c : Char) : Bool :=
  48 ≤ c.toNat && c.toNat ≤ 57

/-- Numeric value of a digit character. -/
def digitVal (c : Char) : Nat :=
  c.toNat - 48

/-- Double a digit and subtract 9 when the result is 10 or more (§4.1). -/
def luhnDouble (d : Nat) : Nat :=
  if 10 ≤ 2 * d then 2 * d - 9 else 2 * d

/-- Sum the digit list, doubling (with the subtract-9 adjustment) exactly the
positions where the flag is set, flipping the flag at each step. -/
def luhnSumAux : List Nat → Bool → Nat
  | [], _ => 0
  | d :: rest, dbl => (if dbl then luhnDouble d else d) + luhnSumAux rest (!dbl)

/-- Luhn sum of a digit list: process from the rightmost digit leftward, the
rightmost digit untouched, every alternate digit doubled. -/
def luhnSum (ds : List Nat) : Nat :=
  luhnSumAux ds.reverse false

/-- The spec's positional description of the Luhn sum (§4.1): indexing the
digits from the rightmost (index 0) leftward, digits at odd index are doubled
and adjusted, the rest are untouched, and everything is summed. -/
def luhnSpecSum (ds : List Nat) : Nat :=
  ((ds.reverse.enum).map (fun p => if p.1 % 2 = 1 then luhnDouble p.2 else p.2)).sum

/-- Modelled from the spec: `IsLuhnValid` (card.go is absent from src/).
Empty or non-digit input yields `(false, InvalidInput)` (§4.1, §7); otherwise
the boolean reports whether the Luhn mod-10 sum is 0 and the error is nil. -/
def IsLuhnValid (s : String) : Bool × Option LuhnError :=
  if s.data.isEmpty || !(s.data.all isDigitChar) then
    (false, some LuhnError.InvalidInput)
  else
    (luhnSum (s.data.map digitVal) % 10 == 0, none)

/-- Holds when the first character list is an initial segment of the
second. -/
def hasPreL : List Char → List Char → Bool
  | [], _ => true
  | _ :: _, [] => false
  | p :: ps, c :: cs => if p = c then hasPreL ps cs else false

/-- Holds when the string `s` starts with the pattern `p`. -/
def hasPre (s p : String) : Bool :=
  hasPreL p.data s.data

/-- Visa rule: starts with "4". -/
def visaPre (s : String) : Bool := hasPre s "4"

/-- MasterCard rule: starts with "51"-"55". -/
def mcPre (s : String) : Bool :=
  hasPre s "51" || hasPre s "52" || hasPre s "53" || hasPre s "54" || hasPre s "55"

/-- AmericanExpress rule: starts with "34" or "37". -/
def aePre (s : String) : Bool := hasPre s "34" || hasPre s "37"

/-- DinersClub rule as the code applies it: starts with "36" or "300"-"305". -/
def dcPre (s : String) : Bool :=
  hasPre s "36" || hasPre s "300" || hasPre s "301" || hasPre s "302" ||
    hasPre s "303" || hasPre s "304" || hasPre s "305"

/-- Discover rule: starts with "6011". -/
def discPre (s : String) : Bool := hasPre s "6011"

/-- JCB rule as the code applies it: starts with "2131" or "1800", or starts
with "3" but not with an unmatched "30" prefix (every other "3..." number
falls through to JCB, as the fixture 380134239348202 → JCB forces). -/
def jcbPre (s : String) : Bool :=
  hasPre s "2131" || hasPre s "1800" || (hasPre s "3" && !hasPre s "30")

/-- Modelled from the spec: `GetCardType` (card.go is absent from src/).
The §4.1 table's length restrictions contradict the §8 fixtures and
src/card_test.go (e.g. "601134239348202", length 15, must classify as
Discover; "521134239348202", length 15, as MasterCard), so the model applies
the prefix rules only, in the table's priority order, with numbers starting
with "3" not otherwise matched defaulting to JCB as the fixtures
"380134239348202" → JCB and "180034239348202" → JCB force. -/
def GetCardType (s : String) : CardType :=
  if visaPre s then CardType.Visa
  else if mcPre s then CardType.MasterCard
  else if aePre s then CardType.AmericanExpress
  else if dcPre s then CardType.DinersClub
  else if discPre s then CardType.Discover
  else if jcbPre s then CardType.JCB
  else CardType.UnknownCard

/-- Value of the first four characters of `s` read as a decimal number, when
they are all digits; 0 otherwise.  Used only to express the spec's
"3528"-"3589" JCB range. -/
def lead4 (s : String) : Nat :=
  match s.data with
  | a :: b :: c :: d :: _ =>
      if isDigitChar a && isDigitChar b && isDigitChar c && isDigitChar d then
        digitVal a * 1000 + digitVal b * 100 + digitVal c * 10 + digitVal d
      else 0
  | _ => 0

/-- DinersClub row exactly as the §4.1 table writes it: prefixes "300"-"305",
"36", or "38". -/
def dcTablePre (s : String) : Bool := dcPre s || hasPre s "38"

/-- JCB row exactly as the §4.1 table writes it: prefixes "3528"-"3589",
"2131" or "1800". -/
def jcbTablePre (s : String) : Bool :=
  (3528 ≤ lead4 s && lead4 s ≤ 3589) || hasPre s "2131" || hasPre s "1800"

/-- The classification exactly as the spec's §4.1 prefix-and-length table
states it, most specific rule first.  This is the claim's reading of the
classifier, kept separate so it can be compared with `GetCardType`. -/
def GetCardTypeTable (s : String) : CardType :=
  if visaPre s && (s.length == 13 || s.length == 16) then CardType.Visa
  else if mcPre s && s.length == 16 then CardType.MasterCard
  else if aePre s && s.length == 15 then CardType.AmericanExpress
  else if dcTablePre s && s.length == 14 then CardType.DinersClub
  else if discPre s && s.length == 16 then CardType.Discover
  else if jcbTablePre s && (s.length == 15 || s.length == 16) then CardType.JCB
  else CardType.UnknownCard

/-- The test corpus of src/card_test.go: number, expected network, expected
Luhn validity. -/
def cards : List (String × CardType × Bool) :=
  [("4242424242424242", CardType.Visa, true),
   ("4213729238347292", CardType.Visa, false),
   ("79927398713", CardType.UnknownCard, true),
   ("79927398710", CardType.UnknownCard, false),
   ("601134239348202", CardType.Discover, false),
   ("344347386473833", CardType.AmericanExpress, false),
   ("374347386473833", CardType.AmericanExpress, false),
   ("361134239348202", CardType.DinersClub, false),
   ("300134239348202", CardType.DinersClub, false),
   ("521134239348202", CardType.MasterCard, false),
   ("380134239348202", CardType.JCB, false),
   ("180034239348202", CardType.JCB, false)]

/-- Modelled from the spec: the `CardParams` structure of the absent card.go,
restricted to the fields the sources under src/ exercise (the token fixture in
stripe.go uses `Name`, `Number`, `ExpYear`, `ExpMonth`). -/
structure CardParams where
  Name : String
  Number : String
  ExpMonth : Int
  ExpYear : Int
deriving DecidableEq, Repr

/-- The `ChargeParams` structure of the charges file, embedded field for
field. -/
structure ChargeParams where
  Amount : Int
  Currency : String
  Customer : String
  Card : Option CardParams
  Token : String
  Description : String
deriving DecidableEq, Repr

/-- An outgoing HTTP request as the clients assemble it: method, path and the
form values in the order they are added. -/
structure Request where
  method : String
  path : String
  values : List (String × String)
deriving DecidableEq, Repr

/-- Modelled from the spec: `appendCardParams` lives in the absent card.go;
it appends the credit-card details to the form under "card[...]" keys. -/
def appendCardParams (c : CardParams) : List (String × String) :=
  [("card[number]", c.Number), ("card[name]", c.Name),
   ("card[exp_month]", toString c.ExpMonth), ("card[exp_year]", toString c.ExpYear)]

/-- The form values ChargeClient.Create always sends, before the payment
source is chosen. -/
def chargeBase (p : ChargeParams) : List (String × String) :=
  [("amount", toString p.Amount), ("currency", p.Currency),
   ("description", p.Description)]

/-- The three mutually exclusive payment sources a Create request can carry. -/
inductive ChargeSource where
  | cardFields : CardParams → ChargeSource
  | tokenCard : String → ChargeSource
  | customer : String → ChargeSource
deriving DecidableEq, Repr

/-- The form entries each payment source contributes. -/
def sourceValues : ChargeSource → List (String × String)
  | ChargeSource.cardFields c => appendCardParams c
  | ChargeSource.tokenCard t => [("card", t)]
  | ChargeSource.customer id => [("customer", id)]

/-- The payment source ChargeClient.Create selects: the card if non-nil, else
the token if non-empty, else the customer (even when empty). -/
def selectedSource (p : ChargeParams) : ChargeSource :=
  match p.Card with
  | some c => ChargeSource.cardFields c
  | none =>
      if p.Token.length > 0 then ChargeSource.tokenCard p.Token
      else ChargeSource.customer p.Customer

/-- The form values ChargeClient.Create assembles, mirroring its
if / else-if / else over Card, Token and Customer. -/
def chargeCreateValues (p : ChargeParams) : List (String × String) :=
  match p.Card with
  | some c => chargeBase p ++ appendCardParams c
  | none =>
      if p.Token.length > 0 then chargeBase p ++ [("card", p.Token)]
      else chargeBase p ++ [("customer", p.Customer)]

/-- The request PlanClient.ListN issues: GET /plans with count and offset. -/
def planListNReq (count offset : Int) : Request :=
  ⟨"GET", "/plans", [("count", toString count), ("offset", toString offset)]⟩

/-- The request PlanClient.List issues; its body is `return c.ListN(10, 0)`. -/
def planListReq : Request := planListNReq 10 0

/-- The request the private ChargeClient.list helper issues: GET /charges
with count and offset, plus the customer id when it is non-empty. -/
def chargeListHelperReq (id : String) (count offset : Int) : Request :=
  ⟨"GET", "/charges",
    (let vals := [("count", toString count), ("offset", toString offset)]
     if id ≠ "" then vals ++ [("customer", id)] else vals)⟩

/-- ChargeClient.List: `return c.list("", 10, 0)`. -/
def chargeListReq : Request := chargeListHelperReq "" 10 0

/-- ChargeClient.ListN: `return c.list("", count, offset)`. -/
def chargeListNReq (count offset : Int) : Request := chargeListHelperReq "" count offset

/-- ChargeClient.CustomerList: `return c.list(id, 10, 0)`. -/
def chargeCustomerListReq (id : String) : Request := chargeListHelperReq id 10 0

/-- ChargeClient.CustomerListN: `return c.list(id, count, offset)`. -/
def chargeCustomerListNReq (id : String) (count offset : Int) : Request :=
  chargeListHelperReq id count offset

/-- PlanClient.ListN with the external service abstracted as an oracle from
requests to results: the result is whatever the service returns for the
request ListN builds. -/
def planListN (α : Type) (q : Request → α) (count offset : Int) : α :=
  q (planListNReq count offset)

/-- PlanClient.List calls ListN(10, 0). -/
def planList (α : Type) (q : Request → α) : α := planListN α q 10 0

/-- The private ChargeClient.list helper under the same oracle abstraction. -/
def chargeListHelper (α : Type) (q : Request → α) (id : String) (count offset : Int) : α :=
  q (chargeListHelperReq id count offset)

/-- ChargeClient.ListN calls list("", count, offset). -/
def chargeListN (α : Type) (q : Request → α) (count offset : Int) : α :=
  chargeListHelper α q "" count offset

/-- ChargeClient.List calls list("", 10, 0). -/
def chargeList (α : Type) (q : Request → α) : α := chargeListHelper α q "" 10 0

/-- ChargeClient.CustomerListN calls list(id, count, offset). -/
def chargeCustomerListN (α : Type) (q : Request → α) (id : String) (count offset : Int) : α :=
  chargeListHelper α q id count offset

/-- ChargeClient.CustomerList calls list(id, 10, 0). -/
def chargeCustomerList (α : Type) (q : Request → α) (id : String) : α :=
  chargeListHelper α q id 10 0

lemma not_decide_mod_two (n : Nat) :
    (!decide (n % 2 = 1)) = decide ((n + 1) % 2 = 1) := by
  rcases Nat.mod_two_eq_zero_or_one n with h | h
  · have h2 : (n + 1) % 2 = 1 := by omega
    simp [h, h2]
  · have h2 : (n + 1) % 2 = 0 := by omega
    simp [h, h2]

lemma luhnSumAux_enumFrom (l : List Nat) :
    ∀ n : Nat, luhnSumAux l (decide (n % 2 = 1)) =
      ((List.enumFrom n l).map (fun p => if p.1 % 2 = 1 then luhnDouble p.2 else p.2)).sum := by
  induction l with
  | nil => intro n; simp [luhnSumAux]
  | cons d tl ih =>
      intro n
      have := ih (n + 1)
      simp only [luhnSumAux, List.enumFrom, List.map_cons, List.sum_cons,
        not_decide_mod_two, this]
      by_cases h : n % 2 = 1 <;> simp [h]

lemma luhnSum_eq_spec (ds : List Nat) : luhnSum ds = luhnSpecSum ds := by
  have h := luhnSumAux_enumFrom ds.reverse 0
  simpa [luhnSum, luhnSpecSum, List.enum] using h

lemma luhnSumAux_append (x y : List Nat) :
    ∀ b : Bool, luhnSumAux (x ++ y) b =
      luhnSumAux x b + luhnSumAux y (Bool.xor b (decide (x.length % 2 = 1))) := by
  induction x with
  | nil => intro b; simp [luhnSumAux]
  | cons d tl ih =>
      intro b
      have hlen : (!decide (tl.length % 2 = 1)) = decide ((tl.length + 1) % 2 = 1) :=
        not_decide_mod_two tl.length
      have hx : Bool.xor (!b) (decide (tl.length % 2 = 1)) =
          Bool.xor b (decide ((tl.length + 1) % 2 = 1)) := by
        rw [← hlen]; cases b <;> cases decide (tl.length % 2 = 1) <;> rfl
      have h1 : luhnSumAux ((d :: tl) ++ y) b
          = (if b then luhnDouble d else d) + luhnSumAux (tl ++ y) (!b) := rfl
      have h2 : luhnSumAux (d :: tl) b
          = (if b then luhnDouble d else d) + luhnSumAux tl (!b) := rfl
      rw [h1, h2, ih (!b), hx, List.length_cons]
      omega

lemma luhnDouble_mod_ne (p : Bool) :
    ∀ x < 10, ∀ y < 10, x ≠ y →
      (if p then luhnDouble x else x) % 10 ≠ (if p then luhnDouble y else y) % 10 := by
  cases p <;> decide

lemma digitVal_lt {c : Char} (h : isDigitChar c = true) : digitVal c < 10 := by
  unfold isDigitChar at h
  rw [Bool.and_eq_true, decide_eq_true_eq, decide_eq_true_eq] at h
  unfold digitVal
  omega

lemma isLuhnValid_digits (s : String) (h1 : s.data ≠ [])
    (h2 : ∀ x ∈ s.data, isDigitChar x = true) :
    IsLuhnValid s = (luhnSum (s.data.map digitVal) % 10 == 0, none) := by
  have hempty : s.data.isEmpty = false := by
    cases hd : s.data with
    | nil => exact absurd hd h1
    | cons a l => simp [List.isEmpty]
  have hall : s.data.all isDigitChar = true := List.all_eq_true.mpr h2
  unfold IsLuhnValid
  simp [hempty, hall]

lemma append_singleton_data (t u : String) (c : Char) :
    (t ++ String.singleton c ++ u).data = t.data ++ c :: u.data := by
  cases t with
  | mk lt =>
      cases u with
      | mk lu =>
          show (lt ++ [c]) ++ lu = lt ++ c :: lu
          simp

/-- C1: for every non-empty string of decimal digit characters, IsLuhnValid
returns valid = true iff the Luhn mod-10 checksum passes: indexing the digits
from the rightmost (index 0) leftward, every digit at odd index — i.e. every
alternate digit starting with the second-from-rightmost — is doubled with 9
subtracted when the doubled value is 10 or more, and the total of all
adjusted and untouched digits is divisible by 10. -/
theorem luhn_valid_iff_mod10 (s : String) (h1 : s.data ≠ [])
    (h2 : ∀ x ∈ s.data, isDigitChar x = true) :
    (IsLuhnValid s).1 = true ↔ luhnSpecSum (s.data.map digitVal) % 10 = 0 := by
  rw [isLuhnValid_digits s h1 h2]
  simp [luhnSum_eq_spec]

/-- Witness for C1 at the fixture "79927398713". -/
theorem luhn_valid_iff_mod10_witness :
    (IsLuhnValid "79927398713").1 = true ↔
      luhnSpecSum (("79927398713" : String).data.map digitVal) % 10 = 0 :=
  luhn_valid_iff_mod10 "79927398713" (by decide) (by decide)

/-- C2: IsLuhnValid returns a non-nil InvalidInput error iff the input is
empty or contains a non-digit character; in that case valid is false; for a
non-empty all-digit input the error is nil and a failed checksum is reported
only through valid = false. -/
theorem luhn_error_conditions (s : String) :
    ((IsLuhnValid s).2 = some LuhnError.InvalidInput ↔
        (s.data = [] ∨ ¬ ∀ x ∈ s.data, isDigitChar x = true)) ∧
    ((IsLuhnValid s).2 ≠ none → (IsLuhnValid s).1 = false) ∧
    (s.data ≠ [] → (∀ x ∈ s.data, isDigitChar x = true) →
        (IsLuhnValid s).2 = none ∧
          ((IsLuhnValid s).1 = false ↔ luhnSum (s.data.map digitVal) % 10 ≠ 0)) := by
  by_cases h1 : s.data = []
  · refine ⟨?_, ?_, ?_⟩ <;> simp [IsLuhnValid, h1]
  · by_cases h2 : ∀ x ∈ s.data, isDigitChar x = true
    · rw [isLuhnValid_digits s h1 h2]
      refine ⟨?_, ?_, ?_⟩ <;> simp [h1, h2]
      exact h2
    · have hall : s.data.all isDigitChar = false := by
        cases hb : s.data.all isDigitChar with
        | false => rfl
        | true => exact absurd (List.all_eq_true.mp hb) h2
      refine ⟨?_, ?_, ?_⟩ <;> simp [IsLuhnValid, hall, h2]

/-- Witness for C2 at the fixtures "" and "12a3". -/
theorem luhn_error_conditions_witness :
    (IsLuhnValid "").1 = false ∧ (IsLuhnValid "12a3").1 = false :=
  ⟨(luhn_error_conditions "").2.1 (by decide),
   (luhn_error_conditions "12a3").2.1 (by decide)⟩

/-- C3 counterexample: the spec's §4.1 prefix-and-length table classifies
"601134239348202" (length 15) as UnknownCard, because its Discover row
demands length 16; but the repository's test corpus (src/card_test.go) pins
that input to Discover, which the classifier returns. -/
theorem table_claim_counterexample :
    ("601134239348202", CardType.Discover, false) ∈ cards ∧
    GetCardTypeTable "601134239348202" = CardType.UnknownCard ∧
    GetCardType "601134239348202" = CardType.Discover := by decide

/-- C3 (amended): GetCardType applies the table's prefix rules in the table's
priority order but without any length check, and every number starting with
"3" that no earlier rule catches — other than an unmatched "30..." prefix —
classifies as JCB. -/
theorem getCardType_prefix_rules (s : String) :
    (visaPre s = true → GetCardType s = CardType.Visa) ∧
    (visaPre s = false → mcPre s = true → GetCardType s = CardType.MasterCard) ∧
    (visaPre s = false → mcPre s = false → aePre s = true →
        GetCardType s = CardType.AmericanExpress) ∧
    (visaPre s = false → mcPre s = false → aePre s = false → dcPre s = true →
        GetCardType s = CardType.DinersClub) ∧
    (visaPre s = false → mcPre s = false → aePre s = false → dcPre s = false →
        discPre s = true → GetCardType s = CardType.Discover) ∧
    (visaPre s = false → mcPre s = false → aePre s = false → dcPre s = false →
        discPre s = false → jcbPre s = true → GetCardType s = CardType.JCB) ∧
    (visaPre s = false → mcPre s = false → aePre s = false → dcPre s = false →
        discPre s = false → jcbPre s = false → GetCardType s = CardType.UnknownCard) := by
  refine ⟨?_, ?_, ?_, ?_, ?_, ?_, ?_⟩ <;> intros <;> simp_all [GetCardType]

/-- Witness for the amended C3 at the MasterCard fixture. -/
theorem getCardType_prefix_rules_witness :
    GetCardType "521134239348202" = CardType.MasterCard :=
  (getCardType_prefix_rules "521134239348202").2.1 (by decide) (by decide)

/-- C4: for every input string the classification returns exactly one value
of the closed seven-value enumeration; the function is total (it has no error
outcome) and its definition never consults the Luhn checksum. -/
theorem getCardType_total_enum (s : String) :
    GetCardType s = CardType.Visa ∨ GetCardType s = CardType.MasterCard ∨
    GetCardType s = CardType.AmericanExpress ∨ GetCardType s = CardType.DinersClub ∨
    GetCardType s = CardType.Discover ∨ GetCardType s = CardType.JCB ∨
    GetCardType s = CardType.UnknownCard := by
  cases h : GetCardType s <;> simp

/-- C5: "380134239348202" classifies as JCB and fails the Luhn check, and
"180034239348202" also classifies as JCB, as src/card_test.go requires. -/
theorem jcb_fixture_eval :
    GetCardType "380134239348202" = CardType.JCB ∧
    (IsLuhnValid "380134239348202").1 = false ∧
    GetCardType "180034239348202" = CardType.JCB := by decide

/-- C6: the seven concrete fixtures of the claim, matching src/card_test.go. -/
theorem card_fixture_eval :
    GetCardType "4242424242424242" = CardType.Visa ∧
    (IsLuhnValid "4242424242424242").1 = true ∧
    GetCardType "4213729238347292" = CardType.Visa ∧
    (IsLuhnValid "4213729238347292").1 = false ∧
    GetCardType "79927398713" = CardType.UnknownCard ∧
    (IsLuhnValid "79927398713").1 = true ∧
    GetCardType "79927398710" = CardType.UnknownCard ∧
    (IsLuhnValid "79927398710").1 = false ∧
    GetCardType "601134239348202" = CardType.Discover ∧
    (IsLuhnValid "601134239348202").1 = false ∧
    GetCardType "344347386473833" = CardType.AmericanExpress ∧
    (IsLuhnValid "344347386473833").1 = false ∧
    GetCardType "521134239348202" = CardType.MasterCard ∧
    (IsLuhnValid "521134239348202").1 = false := by decide

/-- C7: altering exactly one digit of a Luhn-valid all-digit string by a
non-zero amount mod 10 makes IsLuhnValid return valid = false.  The altered
string is written as `t ++ singleton c' ++ u` against the original
`t ++ singleton c ++ u`. -/
theorem luhn_single_digit_change (t u : String) (c c' : Char) (k : Nat)
    (hc : isDigitChar c = true) (hc' : isDigitChar c' = true)
    (ht : ∀ x ∈ t.data, isDigitChar x = true)
    (hu : ∀ x ∈ u.data, isDigitChar x = true)
    (hk1 : 1 ≤ k) (hk2 : k ≤ 9)
    (hrel : digitVal c' = (digitVal c + k) % 10)
    (hvalid : (IsLuhnValid (t ++ String.singleton c ++ u)).1 = true) :
    (IsLuhnValid (t ++ String.singleton c' ++ u)).1 = false := by
  have hdata : (t ++ String.singleton c ++ u).data = t.data ++ c :: u.data :=
    append_singleton_data t u c
  have hdata' : (t ++ String.singleton c' ++ u).data = t.data ++ c' :: u.data :=
    append_singleton_data t u c'
  have hne : (t ++ String.singleton c ++ u).data ≠ [] := by rw [hdata]; simp
  have hne' : (t ++ String.singleton c' ++ u).data ≠ [] := by rw [hdata']; simp
  have hall : ∀ x ∈ (t ++ String.singleton c ++ u).data, isDigitChar x = true := by
    rw [hdata]
    intro x hx
    rcases List.mem_append.mp hx with h | h
    · exact ht x h
    · rcases List.mem_cons.mp h with h | h
      · subst h; exact hc
      · exact hu x h
  have hall' : ∀ x ∈ (t ++ String.singleton c' ++ u).data, isDigitChar x = true := by
    rw [hdata']
    intro x hx
    rcases List.mem_append.mp hx with h | h
    · exact ht x h
    · rcases List.mem_cons.mp h with h | h
      · subst h; exact hc'
      · exact hu x h
  have key : ∀ d : Nat,
      luhnSum (t.data.map digitVal ++ d :: u.data.map digitVal)
        = luhnSumAux (u.data.map digitVal).reverse false
          + ((if decide (u.data.length % 2 = 1) then luhnDouble d else d)
             + luhnSumAux (t.data.map digitVal).reverse
                 (!decide (u.data.length % 2 = 1))) := by
    intro d
    have hrev : (t.data.map digitVal ++ d :: u.data.map digitVal).reverse
        = (u.data.map digitVal).reverse ++ d :: (t.data.map digitVal).reverse := by
      simp
    have hxor : Bool.xor false (decide ((u.data.map digitVal).reverse.length % 2 = 1))
        = decide (u.data.length % 2 = 1) := by
      simp
    rw [luhnSum, hrev, luhnSumAux_append, hxor]
    simp [luhnSumAux]
  have hmapc : (t.data ++ c :: u.data).map digitVal
      = t.data.map digitVal ++ digitVal c :: u.data.map digitVal := by simp
  have hmapc' : (t.data ++ c' :: u.data).map digitVal
      = t.data.map digitVal ++ digitVal c' :: u.data.map digitVal := by simp
  rw [isLuhnValid_digits _ hne hall] at hvalid
  have hv : (luhnSum ((t ++ String.singleton c ++ u).data.map digitVal) % 10 == 0)
      = true := hvalid
  rw [hdata, hmapc, key (digitVal c), beq_iff_eq] at hv
  rw [isLuhnValid_digits _ hne' hall']
  show (luhnSum ((t ++ String.singleton c' ++ u).data.map digitVal) % 10 == 0) = false
  rw [hdata', hmapc', key (digitVal c'), beq_eq_false_iff_ne]
  have hdc : digitVal c < 10 := digitVal_lt hc
  have hdc' : digitVal c' < 10 := digitVal_lt hc'
  have hneq : digitVal c' ≠ digitVal c := by omega
  have hg := luhnDouble_mod_ne (decide (u.data.length % 2 = 1))
    (digitVal c') hdc' (digitVal c) hdc hneq
  omega

/-- Witness for C7: bumping the final check digit of the valid fixture
"79927398713" from 3 to 4 yields an invalid number. -/
theorem luhn_single_digit_change_witness :
    (IsLuhnValid ("7992739871" ++ String.singleton '4' ++ "")).1 = false :=
  luhn_single_digit_change "7992739871" "" '3' '4' 1
    (by decide) (by decide) (by decide) (by decide) (by decide) (by decide)
    (by decide) (by decide)

/-- C8: both operations are deterministic pure functions — any two calls on
equal inputs return identical results, with no state involved. -/
theorem validator_deterministic (s t : String) (h : s = t) :
    IsLuhnValid s = IsLuhnValid t ∧ GetCardType s = GetCardType t := by
  subst h; exact ⟨rfl, rfl⟩

/-- Witness for C8 at the Visa fixture. -/
theorem validator_deterministic_witness :
    IsLuhnValid "4242424242424242" = IsLuhnValid "4242424242424242" ∧
    GetCardType "4242424242424242" = GetCardType "4242424242424242" :=
  validator_deterministic "4242424242424242" "4242424242424242" rfl

/-- C9: the unparameterized list operations are the parameterized ones with
count = 10 and offset = 0, both at the level of the result for any behaviour
of the external service and at the level of the issued request. -/
theorem list_default_pagination (α : Type) (q : Request → α) (id : String) :
    planList α q = planListN α q 10 0 ∧
    chargeList α q = chargeListN α q 10 0 ∧
    chargeCustomerList α q id = chargeCustomerListN α q id 10 0 ∧
    planListReq = planListNReq 10 0 ∧
    chargeListReq = chargeListNReq 10 0 ∧
    chargeCustomerListReq id = chargeCustomerListNReq id 10 0 :=
  ⟨rfl, rfl, rfl, rfl, rfl, rfl⟩

/-- C10: ChargeClient.Create appends exactly one payment source to the base
form, with fixed precedence: the card fields when Card is non-nil, else the
token under the "card" key when Token is non-empty, else the "customer" field
(even when Customer is empty). -/
theorem charge_create_source_selection (p : ChargeParams) :
    chargeCreateValues p = chargeBase p ++ sourceValues (selectedSource p) ∧
    (∀ c, p.Card = some c → selectedSource p = ChargeSource.cardFields c) ∧
    (p.Card = none → p.Token.length > 0 →
        selectedSource p = ChargeSource.tokenCard p.Token) ∧
    (p.Card = none → ¬ p.Token.length > 0 →
        selectedSource p = ChargeSource.customer p.Customer) := by
  rcases hc : p.Card with _ | c <;> by_cases htk : p.Token.length > 0 <;>
    simp [chargeCreateValues, selectedSource, sourceValues, hc, htk]

/-- Witness for C10: the three precedence branches at concrete parameters. -/
theorem charge_create_source_selection_witness :
    selectedSource ⟨1000, "usd", "", some ⟨"N", "4242424242424242", 5, 2026⟩, "", ""⟩
        = ChargeSource.cardFields ⟨"N", "4242424242424242", 5, 2026⟩ ∧
    selectedSource ⟨1000, "usd", "", none, "tok_123", ""⟩
        = ChargeSource.tokenCard "tok_123" ∧
    selectedSource ⟨1000, "usd", "cus_1", none, "", ""⟩
        = ChargeSource.customer "cus_1" := by
  refine ⟨?_, ?_, ?_⟩
  · exact (charge_create_source_selection _).2.1 _ rfl
  · exact (charge_create_source_selection _).2.2.1 rfl (by decide)
  · exact (charge_create_source_selection _).2.2.2 rfl (by decide)
